import Mathlib

/-!
# Verification of the immaterialdb core against its specification

Shallow embedding of the immaterialdb materialized-view layer:
key serializers (`value_serializers.py`), node builders (`nodes.py`),
the query engine (`query.py`), the write engine (`model.py`), the
advisory lock (`dynamo_provider.py`) and the transaction error
boundaries (`errors.py` and `error_boundaries.py`), with theorems
settling the spec claims about them.
-/

namespace ImmaterialDB

/-! ## Python string helpers used by the serializers -/

/-- Python's `str.zfill(w)`: left-pad with `'0'` up to width `w`. -/
def zfill (w : Nat) (s : String) : String :=
  if s.length ≥ w then s
  else String.mk (List.replicate (w - s.length) '0') ++ s

/-- Python's `str.ljust(w, "0")`: right-pad with `'0'` up to width `w`. -/
def ljustZeros (w : Nat) (s : String) : String :=
  if s.length ≥ w then s
  else s ++ String.mk (List.replicate (w - s.length) '0')

/-- Python's `int(s)` on a plain digit string. -/
def pyStrToNat (s : String) : Nat :=
  s.data.foldl (fun acc c => acc * 10 + (c.toNat - '0'.toNat)) 0

/-! ## `value_serializers.py`: lexicographic scalar encodings -/

/-- `value_serializers.INT_MAX_LENGTH` -/
def INT_MAX_LENGTH : Nat := 20
/-- `value_serializers.FLOAT_INT_MAX_LENGTH` -/
def FLOAT_INT_MAX_LENGTH : Nat := 10
/-- `value_serializers.FLOAT_FRAC_MAX_LENGTH` -/
def FLOAT_FRAC_MAX_LENGTH : Nat := 10

/-- `constants.SEPERATOR` -/
def SEPERATOR : String := "##"

/-- `value_serializers.int_to_lexicographic_string` at its default width 20:
sign byte `"0"`/`"1"`, then the zero-padded magnitude, with negatives
complemented as `10^20 - |n|`. -/
def int_to_lexicographic_string (n : Int) : String :=
  if n < 0 then
    "0" ++ zfill INT_MAX_LENGTH (toString (10 ^ INT_MAX_LENGTH - n.natAbs))
  else
    "1" ++ zfill INT_MAX_LENGTH (toString n.toNat)

/-- `value_serializers.float_to_lexicographic_string` at its default widths.
The Python code first renders `abs(f)` with `f"{f:.10f}"` and splits it at
the decimal point; we take that rendering as the input: `neg` is the sign,
`ip` the integer part and `fp` the value of the ten-digit fractional part
(`fp < 10^10`), so the split strings are `toString ip` and
`zfill 10 (toString fp)`. -/
def float_to_lexicographic_string (neg : Bool) (ip fp : Nat) : String :=
  if neg then
    "0" ++ zfill FLOAT_INT_MAX_LENGTH (toString (10 ^ FLOAT_INT_MAX_LENGTH - ip))
      ++ "." ++ zfill FLOAT_FRAC_MAX_LENGTH (toString (10 ^ FLOAT_FRAC_MAX_LENGTH - fp))
  else
    "1" ++ zfill FLOAT_INT_MAX_LENGTH (toString ip)
      ++ "." ++ ljustZeros FLOAT_FRAC_MAX_LENGTH (zfill FLOAT_FRAC_MAX_LENGTH (toString fp))

/-- `value_serializers.decimal_to_lexicographic_string` at its default widths
(both 20). The Python code splits `str(abs(d))` at the decimal point into
two digit strings, which are the `ipStr`/`fpStr` inputs here; negatives go
through `int(...)` and the complement, positives keep the strings and pad. -/
def decimal_to_lexicographic_string (neg : Bool) (ipStr fpStr : String) : String :=
  if neg then
    "0" ++ zfill INT_MAX_LENGTH (toString (10 ^ INT_MAX_LENGTH - pyStrToNat ipStr))
      ++ "." ++ zfill INT_MAX_LENGTH (toString (10 ^ INT_MAX_LENGTH - pyStrToNat fpStr))
  else
    "1" ++ zfill INT_MAX_LENGTH ipStr ++ "." ++ ljustZeros INT_MAX_LENGTH fpStr

/-! ## Scalar values and `serialize_for_index`

`FieldValue(name, value)` carries heterogeneous Python scalars.  The
embedding covers the scalar branches of `serialize_for_index` that the
claims exercise: `str`, `int`, `float`, `Decimal`, `bool` and `None`
(floats and decimals are carried in the decimal form their Python
string rendering produces, as in the lexicographic encoders above). -/

inductive PyValue where
  | str (s : String)
  | int (n : Int)
  | float (neg : Bool) (ip fp : Nat)
  | dec (neg : Bool) (ipStr fpStr : String)
  | bool (b : Bool)
  | none
  deriving DecidableEq, Repr

/-- Python `str(...)` of the scalar, as used by the non-lexicographic
branches of `serialize_for_index`. -/
def PyValue.pyStr : PyValue → String
  | .str s => s
  | .int n => toString n
  | .float neg ip fp =>
      (if neg then "-" else "") ++ toString ip ++ "." ++ zfill FLOAT_FRAC_MAX_LENGTH (toString fp)
  | .dec neg ipStr fpStr => (if neg then "-" else "") ++ ipStr ++ "." ++ fpStr
  | .bool b => if b then "True" else "False"
  | .none => "None"

/-- `value_serializers.serialize_for_index(value, ensure_lexigraphic_sortability)`.
Note the Python `isinstance` ladder tests `int` before `bool`, and `bool`
is a subclass of `int` in Python, so genuine booleans take the `int`
branch; the dedicated `bool` branch below is therefore unreachable for
real Python booleans, which the embedding mirrors by keeping `.bool`
values distinct from `.int` values. -/
def serialize_for_index (value : PyValue) (lex : Bool) : String :=
  match value with
  | .str s => s
  | .int n => if lex then int_to_lexicographic_string n else toString n
  | .float neg ip fp => if lex then float_to_lexicographic_string neg ip fp else PyValue.pyStr (.float neg ip fp)
  | .dec neg ipStr fpStr =>
      if lex then decimal_to_lexicographic_string neg ipStr fpStr else PyValue.pyStr (.dec neg ipStr fpStr)
  | .bool b => if b then "true" else "false"
  | .none => "null"

/-- `types.FieldValue` -/
structure FieldValue where
  name : String
  value : PyValue
  deriving DecidableEq, Repr

/-! ## Composite key serializers (`value_serializers.py`) -/

/-- Python's `sep.join(parts)`. -/
def pyJoin (sep : String) : List String → String
  | [] => ""
  | [x] => x
  | x :: xs => x ++ sep ++ pyJoin sep xs

/-- `value_serializers.serialize_for_query_node_partition_key` -/
def serialize_for_query_node_partition_key
    (entity_name : String) (pk_fields : List FieldValue) (sort_field_names : List String) : String :=
  let key_value_pairs :=
    pyJoin "," (pk_fields.map fun f => f.name ++ "=" ++ serialize_for_index f.value false)
  entity_name ++ "[" ++ key_value_pairs ++ "][" ++ pyJoin "," sort_field_names ++ "]"

/-- `value_serializers.serialize_for_query_node_partial_sort_key` -/
def serialize_for_query_node_partial_sort_key (sk_fields : List FieldValue) : String :=
  let sort_field_values :=
    pyJoin SEPERATOR (sk_fields.map fun f => serialize_for_index f.value true)
  SEPERATOR ++ sort_field_values

/-- `value_serializers.serialize_for_query_node_primary_key` -/
def serialize_for_query_node_primary_key
    (entity_name entity_id : String) (pk_fields sk_fields : List FieldValue) :
    String × String :=
  let pk := serialize_for_query_node_partition_key entity_name pk_fields (sk_fields.map (·.name))
  let sort_field_values := serialize_for_query_node_partial_sort_key sk_fields
  (pk, sort_field_values ++ SEPERATOR ++ entity_id)

/-- `value_serializers.serialize_for_unique_node_primary_key` -/
def serialize_for_unique_node_primary_key
    (entity_name : String) (unique_fields : List FieldValue) : String × String :=
  let key_value_pairs :=
    pyJoin "," (unique_fields.map fun f => f.name ++ "=" ++ serialize_for_index f.value false)
  (entity_name ++ "(" ++ key_value_pairs ++ ")", "unique")

/-! ## Nodes and transaction items (`nodes.py`) -/

/-- A DynamoDB transact-write item as assembled by the node builders
(`nodes.py`).  Item columns are kept as string-valued pairs (the
`TypeSerializer` wire wrapping `{"S": ...}` is elided; `safe_dot_access
(item, "Put.Item.x.S")` is modelled as a lookup in `item`). -/
inductive TxWriteItem where
  | put (tableName : String) (item : List (String × String)) (condExpr : Option String)
        (exprValues : List (String × String))
  | update (tableName : String) (keyPk keySk : String) (updateExpr : String)
           (condExpr : Option String)
  | delete (tableName : String) (keyPk keySk : String)
  deriving DecidableEq, Repr

/-- `safe_dot_access(item, "Put.ConditionExpression")` -/
def TxWriteItem.putCondExpr : TxWriteItem → Option String
  | .put _ _ c _ => c
  | _ => Option.none

/-- `safe_dot_access(item, "Put.Item.<col>.S")` -/
def TxWriteItem.putItemCol (col : String) : TxWriteItem → Option String
  | .put _ item _ _ => (item.find? (fun kv => kv.1 == col)).map (·.2)
  | _ => Option.none

/-- `safe_dot_access(item, "Update.ConditionExpression")` -/
def TxWriteItem.updateCondExpr : TxWriteItem → Option String
  | .update _ _ _ _ c => c
  | _ => Option.none

/-- `safe_dot_access(item, "Update.UpdateExpression")` -/
def TxWriteItem.updateExpression : TxWriteItem → Option String
  | .update _ _ _ e _ => some e
  | _ => Option.none

/-- `safe_dot_access(item, "Update.Key.pk.S")` -/
def TxWriteItem.updateKeyPk : TxWriteItem → Option String
  | .update _ pk _ _ _ => some pk
  | _ => Option.none

/-- `nodes.UniqueNode` (header fields plus its own columns). -/
structure UniqueNode where
  entity_name : String
  entity_id : String
  pk : String
  sk : String
  unique_node_id : String
  fields : List FieldValue
  deriving DecidableEq, Repr

/-- `nodes.UniqueNode.create` -/
def UniqueNode.create (entity_name entity_id : String) (fields : List FieldValue) : UniqueNode :=
  let pksk := serialize_for_unique_node_primary_key entity_name fields
  { entity_name := entity_name, entity_id := entity_id, fields := fields
    pk := pksk.1, sk := pksk.2, unique_node_id := entity_id }

/-- `nodes.UniqueNode.assemble_transaction_item_put`: a conditional put whose
condition is "row absent OR its stored `entity_id` equals mine". -/
def UniqueNode.assemble_transaction_item_put (n : UniqueNode) (table_name : String) : TxWriteItem :=
  .put table_name
    [("node_type", "unique"), ("entity_name", n.entity_name), ("entity_id", n.entity_id),
     ("pk", n.pk), ("sk", n.sk), ("unique_node_id", n.unique_node_id)]
    (some "attribute_not_exists(pk) OR entity_id = :current_id")
    [(":current_id", n.entity_id)]

/-- `nodes.QueryNode` -/
structure QueryNode where
  entity_name : String
  entity_id : String
  pk : String
  sk : String
  query_node_id : String
  partition_fields : List FieldValue
  sort_fields : List FieldValue
  raw_data : String
  deriving DecidableEq, Repr

/-- `nodes.QueryNode.create` -/
def QueryNode.create (entity_name entity_id : String)
    (partition_fields sort_fields : List FieldValue) (raw_data : String) : QueryNode :=
  let pksk := serialize_for_query_node_primary_key entity_name entity_id partition_fields sort_fields
  { entity_name := entity_name, entity_id := entity_id
    partition_fields := partition_fields, sort_fields := sort_fields
    pk := pksk.1, sk := pksk.2, raw_data := raw_data, query_node_id := entity_id }

/-- `dynamo_provider.counter_key_prefix`.
Modelled from the spec: the function is imported by `nodes.py` but missing
from `src/immaterialdb/dynamo_provider.py`; that module builds counter row
keys as `"immaterial_counter#" + id`, which this definition follows. -/
def counter_key_prefix (s : String) : String := "immaterial_counter#" ++ s

/-- `nodes.CounterNode` -/
structure CounterNode where
  entity_name : String
  entity_id : String
  pk : String
  sk : String
  counter_node_id : String
  counter_field_name : String
  count : Int
  deriving DecidableEq, Repr

/-- `nodes.CounterNode.key` -/
def CounterNode.key (entity_name entity_id field_name : String) : String :=
  counter_key_prefix (entity_name ++ "_" ++ field_name ++ "_" ++ entity_id)

/-- `nodes.CounterNode.create` -/
def CounterNode.create (entity_name entity_id field_name : String) (amount : Int) : CounterNode :=
  let k := CounterNode.key entity_name entity_id field_name
  { entity_name := entity_name, entity_id := entity_id, counter_field_name := field_name
    pk := k, sk := k, counter_node_id := entity_id, count := amount }

/-- `nodes.CounterNode.assemble_transaction_item_put`: a put conditioned on
`attribute_not_exists(pk)`; its row has no `unique_node_id` column. -/
def CounterNode.assemble_transaction_item_put (n : CounterNode) (table_name : String) : TxWriteItem :=
  .put table_name
    [("node_type", "counter"), ("entity_name", n.entity_name), ("entity_id", n.entity_id),
     ("pk", n.pk), ("sk", n.sk), ("counter_node_id", n.counter_node_id),
     ("counter_field_name", n.counter_field_name), ("count", toString n.count)]
    (some "attribute_not_exists(pk)")
    []

/-- `nodes.CounterNode.assemble_transaction_item_increment` -/
def CounterNode.assemble_transaction_item_increment
    (n : CounterNode) (table_name : String) : TxWriteItem :=
  .update table_name n.pk n.sk "ADD #count :amount" (some "attribute_exists(pk)")

/-! ## Transaction error boundaries (`errors.py` and `error_boundaries.py`)

Both modules define a `transaction_write_error_boundary` that inspects a
`TransactionCanceledException` whose per-item cancellation reasons are
aligned with the submitted item list.  `model.py` imports the one from
`errors.py`.  The embedding classifies the outcome of a rejected write:
which domain error (if any) the boundary raises instead of re-raising
the original store error. -/

/-- Python `needle in haystack` on strings, as lists of characters. -/
def listContainsSub (needle hay : List Char) : Bool :=
  match hay with
  | [] => needle.isEmpty
  | _ :: rest => needle.isPrefixOf hay || listContainsSub needle rest

/-- Python `needle in haystack` for strings. -/
def pyInStr (needle hay : String) : Bool :=
  listContainsSub needle.data hay.data

/-- Python truthiness of a `safe_dot_access` result (`None` and the empty
string are falsy). -/
def pyTruthy : Option String → Bool
  | Option.none => false
  | some s => !s.isEmpty

/-- Outcome of a transaction error boundary on a cancelled write. -/
inductive BoundaryOutcome where
  | recordNotUnique (pk : Option String)
  | counterNotSaved (pk : Option String)
  | reraise
  deriving DecidableEq, Repr

/-- `errors.transaction_write_error_boundary` (the boundary `model.py`
imports): walking `zip(items, reasons)`, it raises `RecordNotUniqueError`
at the first `ConditionalCheckFailed` reason whose item is a `Put` whose
`ConditionExpression` contains the substring `"attribute_not_exists(pk)"`;
otherwise the original store error is re-raised. -/
def errors_transaction_write_error_boundary :
    List TxWriteItem → List String → BoundaryOutcome
  | _, [] => .reraise
  | [], _ => .reraise
  | item :: items, reason :: reasons =>
    if reason == "ConditionalCheckFailed"
        && (match item.putCondExpr with
            | some c => pyInStr "attribute_not_exists(pk)" c
            | Option.none => false) then
      .recordNotUnique (item.putItemCol "pk")
    else
      errors_transaction_write_error_boundary items reasons

/-- `error_boundaries.transaction_write_error_boundary`: walking
`zip(items, reasons)`, it raises `RecordNotUniqueError` at the first
`ConditionalCheckFailed` reason whose item is a `Put` with
`ConditionExpression == "attribute_not_exists(pk)"` and a truthy
`unique_node_id` item column, and `CounterNotSavedError` at the first
`ConditionalCheckFailed` reason whose item is an `Update` with
`ConditionExpression == "attribute_exists(pk)"` and
`UpdateExpression == "ADD #count :amount"`; otherwise the original
store error is re-raised. -/
def error_boundaries_transaction_write_error_boundary :
    List TxWriteItem → List String → BoundaryOutcome
  | _, [] => .reraise
  | [], _ => .reraise
  | item :: items, reason :: reasons =>
    if reason == "ConditionalCheckFailed"
        && item.putCondExpr == some "attribute_not_exists(pk)"
        && pyTruthy (item.putItemCol "unique_node_id") then
      .recordNotUnique (item.putItemCol "pk")
    else if reason == "ConditionalCheckFailed"
        && item.updateCondExpr == some "attribute_exists(pk)"
        && item.updateExpression == some "ADD #count :amount" then
      .counterNotSaved item.updateKeyPk
    else
      error_boundaries_transaction_write_error_boundary items reasons

/-! ## Query engine (`query.py` and `model.py`) -/

/-- `query.StandardQueryStatement`: at runtime the `operation` slot holds a
plain string (the `Literal["eq"]` annotation is static typing only, and the
tests pass `"lt"`, `"gte"`, `"begins_with"`, ...). -/
structure StandardQueryStatement where
  field : String
  operation : String
  value : PyValue
  deriving DecidableEq, Repr

/-- `model.QueryIndex` -/
structure QueryIndex where
  partition_fields : List String
  sort_fields : List String
  deriving DecidableEq, Repr

/-- `model.QueryIndex.all_fields` -/
def QueryIndex.all_fields (i : QueryIndex) : List String :=
  i.partition_fields ++ i.sort_fields

/-- `model.UniqueIndex` / `model.QueryIndex` as the tagged `Indices` union. -/
inductive ModelIndex where
  | unique (unique_fields : List String)
  | query (index : QueryIndex)
  deriving DecidableEq, Repr

/-- `query.StandardQuery.all_fields` -/
def standardQueryAllFields (statements : List StandardQueryStatement) : List String :=
  statements.map (·.field)

/-- `model.Model._map_query_fields_to_index`: the first declared
`QueryIndex` that fits (query fields no longer than the index's fields,
exact prefix match on the partition fields, and the statements extend
only along the index's declared field order). -/
def map_query_fields_to_index
    (indices : List ModelIndex) (statements : List StandardQueryStatement) :
    Option QueryIndex :=
  match indices with
  | [] => Option.none
  | .unique _ :: rest => map_query_fields_to_index rest statements
  | .query index :: rest =>
    let qf := standardQueryAllFields statements
    if qf.length > index.all_fields.length then
      map_query_fields_to_index rest statements
    else if qf.take index.partition_fields.length ≠ index.partition_fields then
      map_query_fields_to_index rest statements
    else if index.all_fields.take qf.length ≠ qf then
      map_query_fields_to_index rest statements
    else
      some index

/-- The store key condition `Key("pk").eq(pk) & Key("sk").begins_with(sk)`
built by `Querier.standard_query_to_key_condition`. -/
structure KeyCondition where
  pkEq : String
  skBeginsWith : String
  deriving DecidableEq, Repr

/-- `query.Querier.standard_query_to_key_condition`: rejects the query with
`QueryNotSupportedError` unless every statement's op is `"eq"`, then
rejects it if no declared index fits, and otherwise lowers it to a
`pk`-equality plus `sk`-`begins_with` store condition. -/
def standard_query_to_key_condition
    (model_name : String) (indices : List ModelIndex)
    (statements : List StandardQueryStatement) :
    Except String KeyCondition :=
  if ¬ (statements.all fun statement => statement.operation == "eq") then
    .error "Only 'eq' operations are supported in queries."
  else
    match map_query_fields_to_index indices statements with
    | Option.none => .error "No index found for the given query fields."
    | some index =>
      let pk_fields :=
        (statements.take index.partition_fields.length).map
          fun s => FieldValue.mk s.field s.value
      let sk_fields :=
        (statements.drop index.partition_fields.length).map
          fun s => FieldValue.mk s.field s.value
      let pk := serialize_for_query_node_partition_key model_name pk_fields index.sort_fields
      let sk := serialize_for_query_node_partial_sort_key sk_fields
      .ok { pkEq := pk, skBeginsWith := sk }

/-! ## Query-path record rehydration and auto-decrypt (`query.py`, `model.py`)

`Querier.query` parses each returned row into a node and rehydrates a
record with `model_cls.model_validate_json(node.raw_data)`; JSON parsing
is external (pydantic), so the embedding carries `raw_data` directly as
the field map it deserializes to.  `Model.decrypt_fields` is the
auto-decrypt walk that `Model.get_by_id` applies. -/

/-- A rehydrated record: its field map (field name, value). -/
structure RehydratedRecord where
  fields : List (String × PyValue)
  deriving DecidableEq, Repr

/-- `constants.ENCRYPTED_FIELD_PREFIX` -/
def ENCRYPTED_FIELD_PREFIX : String := "##encrypted##"

/-- Python `s.startswith(prefix)`. -/
def pyStartsWith (s prefixStr : String) : Bool :=
  prefixStr.data.isPrefixOf s.data

/-- Replace every non-overlapping occurrence of `pat` (left to right)
by `repl`, on character lists; `skip` counts characters of an already
matched occurrence still to be consumed. -/
def listReplaceAux (pat repl : List Char) : List Char → Nat → List Char
  | [], _ => []
  | _ :: rest, skip + 1 => listReplaceAux pat repl rest skip
  | c :: rest, 0 =>
    if pat ≠ [] ∧ pat.isPrefixOf (c :: rest) then
      repl ++ listReplaceAux pat repl rest (pat.length - 1)
    else
      c :: listReplaceAux pat repl rest 0

/-- Python `s.replace(pat, repl)` (for a non-empty `pat`). -/
def pyReplace (s pat repl : String) : String :=
  String.mk (listReplaceAux pat.data repl.data s.data 0)

/-- `model.Model.decrypt_fields` on one field value: a string that starts
with the sentinel has the sentinel removed (Python `str.replace`) and the
registered decrypt function applied; other values are left untouched. -/
def decrypt_field_value (decrypt : String → String) : PyValue → PyValue
  | .str s =>
      if pyStartsWith s ENCRYPTED_FIELD_PREFIX then
        .str (decrypt (pyReplace s ENCRYPTED_FIELD_PREFIX ""))
      else
        .str s
  | v => v

/-- `model.Model.decrypt_fields`: applies `decrypt_field_value` to every
declared encrypted field of the record. -/
def decrypt_fields (decrypt : String → String) (encrypted_fields : List String)
    (r : RehydratedRecord) : RehydratedRecord :=
  { fields := r.fields.map fun kv =>
      if encrypted_fields.contains kv.1 then (kv.1, decrypt_field_value decrypt kv.2) else kv }

/-- `query.Querier.query`, record-building step (query.py lines 191-192):
`[self.model_cls.model_validate_json(node.raw_data) for node in query_nodes]`.
No decryption is applied anywhere in `Querier.query`. -/
def querier_query_records (raw_node_data : List RehydratedRecord) : List RehydratedRecord :=
  raw_node_data.map fun r => r

/-- The parameters of `query.Querier.__init__` (query.py lines 149-159),
excluding `self`. -/
def querier_init_params : List String :=
  ["model_cls", "query", "dynamodb_provider", "scan_index_forward"]

/-- The keyword arguments `model.Model.query` passes to the `Querier`
constructor (model.py lines 145-151), beyond the positional
`cls, query, provider`. -/
def model_query_querier_kwargs : List String :=
  ["scan_index_forward", "auto_decrypt"]

/-- Python call semantics: a call raises `TypeError` unless every supplied
keyword argument names a parameter of the callee. -/
def python_kwargs_accepted (params kwargs : List String) : Bool :=
  kwargs.all fun kw => params.contains kw

/-! ## Store conditional-put semantics for the UniqueNode condition

Modelled from the spec: the underlying wide-column store is an external
collaborator ("the store exposes ... conditional puts"); a conditional
put succeeds iff its condition expression evaluates to true against the
currently stored row (absent = `attribute_not_exists`). -/

/-- The part of a stored row the UniqueNode put condition reads. -/
structure StoredUniqueRow where
  entity_id : String
  deriving DecidableEq, Repr

/-- Modelled from the spec: evaluation of the UniqueNode put condition
`"attribute_not_exists(pk) OR entity_id = :current_id"` (with
`:current_id` bound to the writing record's id) against the row currently
stored under the node's key, if any. -/
def eval_unique_put_condition (current_id : String) (existing : Option StoredUniqueRow) : Bool :=
  match existing with
  | Option.none => true
  | some row => row.entity_id == current_id

/-! ## Write engine: save's deletion diff (`model.py`, `nodes.py`) -/

/-- The `(pk, sk)` view of any node (`nodes.Node` header). -/
structure NodeKey where
  pk : String
  sk : String
  deriving DecidableEq, Repr

/-- `nodes.Node.__eq__`: node equality is `(pk, sk)` identity. -/
def node_eq (a b : NodeKey) : Bool :=
  a.pk == b.pk && a.sk == b.sk

/-- The persisted node set `model.Model.save` assembles (model.py lines
110-115): the existing BaseNode, if any, followed by the nodes its
`other_nodes` back-pointers resolve to; absent BaseNode means the empty
list. -/
def save_existing_nodes (existing_base : Option NodeKey) (existing_others : List NodeKey) :
    List NodeKey :=
  match existing_base with
  | some b => b :: existing_others
  | Option.none => []

/-- `model.Model.save`'s deletion diff (model.py line 117):
`[node for node in existing_nodes if node not in current_nodes]`, where
Python `in` uses `Node.__eq__`, i.e. `(pk, sk)` identity. -/
def save_for_deletion (existing_base : Option NodeKey) (existing_others : List NodeKey)
    (current_nodes : List NodeKey) : List NodeKey :=
  (save_existing_nodes existing_base existing_others).filter
    fun node => ! current_nodes.any fun current => node_eq current node

/-! ## Write engine: delete_by_id (`model.py`) -/

/-- A stored table row, keyed by `(pk, sk)`; the payload is left abstract
since `delete_by_id` only moves rows around. -/
structure TableRow where
  pk : String
  sk : String
  node_type : String
  other_nodes : List NodeKey
  deriving DecidableEq, Repr

/-- The node-row table as a list of rows (most recent write first). -/
def TableState := List TableRow

/-- `table.get_item(Key={"pk": pk, "sk": sk})` -/
def table_get (store : List TableRow) (pk sk : String) : Option TableRow :=
  store.find? fun row => row.pk == pk && row.sk == sk

/-- `model.Model._get_base_node`: consistent read of the row at
`(id, id)`. -/
def get_base_node (store : List TableRow) (id : String) : Option TableRow :=
  table_get store id id

/-- `model.Model._get_other_nodes`: consistent reads of each
`other_nodes` back-pointer, keeping the rows that exist with node_type
`unique` or `query`. -/
def get_other_nodes (store : List TableRow) (base : TableRow) : List TableRow :=
  base.other_nodes.foldr
    (fun key acc =>
      match table_get store key.pk key.sk with
      | some row => if row.node_type == "unique" || row.node_type == "query" then row :: acc else acc
      | Option.none => acc)
    []

/-- Applying a list of `Delete` transaction items to the table
(modelled from the spec: the store's atomic multi-item write applies all
items or none; here all). -/
def apply_deletes (store : List TableRow) (keys : List NodeKey) : List TableRow :=
  store.filter fun row => ¬ keys.any fun k => k.pk == row.pk && k.sk == row.sk

/-- `model.Model.delete_by_id` (model.py lines 159-171), as a function of
the node-row table: returns the resulting table and the list of atomic
write transactions submitted (each transaction being the keys it
deletes).  When no BaseNode exists at `(id, id)` the method returns
before building any transaction.  (The advisory lock row it transiently
writes and removes lives outside this node-row table; see the lock
model.) -/
def delete_by_id (store : List TableRow) (id : String) :
    List TableRow × List (List NodeKey) :=
  match get_base_node store id with
  | Option.none => (store, [])
  | some base =>
    let others := get_other_nodes store base
    let keys := (⟨base.pk, base.sk⟩ : NodeKey) :: others.map fun n => ⟨n.pk, n.sk⟩
    (apply_deletes store keys, [keys])

/-! ## Advisory lock (`dynamo_provider.py`)

`DynamodbConnectionProvider.lock(id, ttl, wait)` loops attempting a
conditional put of the lock row and raises once the deadline has passed.
The embedding abstracts real time into a clock sequence: `clock k` is
the wall-clock value the code observes before attempt `k` (`clock 0` is
`start_time`; the 500 ms sleep happens between attempt `k` failing and
`clock (k + 1)` being read), and `rowAt k` is the `expire_time` of the
row currently stored under the lock's `pk` at attempt `k` (absent row =
`Option.none`).  `expiration_time` and `end_time` are computed once from
`clock 0`, exactly as in the code. -/

/-- The lock row `{pk, sk, expire_time}` written by a successful
acquisition. -/
structure LockRow where
  pk : String
  sk : String
  expire_time : Int
  deriving DecidableEq, Repr

/-- The lock row partition key `f"immaterial_lock#{id}"`. -/
def immaterial_lock_pk (id : String) : String := "immaterial_lock#" ++ id

/-- `time.sleep(0.5)` between lock retries, in milliseconds. -/
def lock_retry_sleep_ms : Nat := 500

/-- Modelled from the spec: evaluation of the lock put condition
`"attribute_not_exists(pk) OR expire_time < :now"` against the stored
row's `expire_time`, with `:now` bound to the current clock value
(ISO-8601 text comparison on timezone-aware datetimes agrees with time
order, so times are carried as integers). -/
def lock_condition_holds (existing : Option Int) (now : Int) : Bool :=
  match existing with
  | Option.none => true
  | some expire => expire < now

/-- Outcome of the acquisition loop. -/
inductive LockOutcome where
  | acquired (attempt : Nat)
  | failed
  | fuelOut
  deriving DecidableEq, Repr

/-- The `while now <= end_time` retry loop of `lock`: attempt `k` is made
if `clock k` has not passed `endTime`; it succeeds when the conditional
put's condition holds, and otherwise the loop sleeps and retries.  `fuel`
bounds the recursion (the theorems require it to be large enough). -/
def lock_acquire_go (clock : Nat → Int) (rowAt : Nat → Option Int) (endTime : Int) :
    Nat → Nat → LockOutcome
  | _, 0 => .fuelOut
  | k, fuel + 1 =>
    if clock k ≤ endTime then
      if lock_condition_holds (rowAt k) (clock k) then .acquired k
      else lock_acquire_go clock rowAt endTime (k + 1) fuel
    else .failed

/-- `dynamo_provider.DynamodbConnectionProvider.lock`, acquisition phase:
returns the loop outcome together with the lock row written by the
successful conditional put, if any (a failed conditional put writes
nothing, and the `for ... else` branch raises the lock-acquisition error
without writing). -/
def lock_acquire (clock : Nat → Int) (rowAt : Nat → Option Int)
    (id lock_value : String) (ttl wait : Int) (fuel : Nat) :
    LockOutcome × Option LockRow :=
  let start := clock 0
  let end_time := start + wait
  let expiration_time := start + ttl
  match lock_acquire_go clock rowAt end_time 0 fuel with
  | .acquired k => (.acquired k, some ⟨immaterial_lock_pk id, lock_value, expiration_time⟩)
  | .failed => (.failed, Option.none)
  | .fuelOut => (.fuelOut, Option.none)

/-! ## Spec-side key formulas (written from the spec's words, for the
refinement theorems) -/

/-- Spec formula `"n₁=s(v₁),n₂=s(v₂),…"`: the comma-separated
name/value pairs under the non-lexicographic encoding `s`. -/
def spec_pairs_comma : List FieldValue → String
  | [] => ""
  | [f] => f.name ++ "=" ++ serialize_for_index f.value false
  | f :: rest => f.name ++ "=" ++ serialize_for_index f.value false ++ "," ++ spec_pairs_comma rest

/-- Spec formula for the unique key: `pk = "E(n₁=s(v₁),n₂=s(v₂),…)"`. -/
def spec_unique_pk (entity_name : String) (fields : List FieldValue) : String :=
  entity_name ++ "(" ++ spec_pairs_comma fields ++ ")"

/-- Spec formula `"s₁,s₂,…"`: the comma-separated sort-field names. -/
def spec_names_comma : List String → String
  | [] => ""
  | [n] => n
  | n :: rest => n ++ "," ++ spec_names_comma rest

/-- Spec formula for the query-node partition key:
`pk = "E[p₁=s(v₁),…][s₁,s₂,…]"`. -/
def spec_query_pk (entity_name : String) (partition_fields : List FieldValue)
    (sort_field_names : List String) : String :=
  entity_name ++ "[" ++ spec_pairs_comma partition_fields ++ "]["
    ++ spec_names_comma sort_field_names ++ "]"

/-- Spec formula for the query-node sort key:
`sk = SEP ‖ lex(v₁) ‖ SEP ‖ lex(v₂) ‖ … ‖ SEP ‖ R` with `SEP = "##"`. -/
def spec_query_sk : List PyValue → String → String
  | [], record_id => "##" ++ record_id
  | v :: vs, record_id => "##" ++ serialize_for_index v true ++ spec_query_sk vs record_id

/-! # Theorems settling the claims -/

/-- C1: the claim states that a `StandardQuery` whose leading statements
are equalities and whose last statement uses any op in
`{eq, lt, lte, gt, gte, begins_with}` is lowered to a store key condition
rather than rejected, and that `QueryNotSupported` is raised only for an
unknown op or an uncovered field set.  The code refutes this: on the
query `[("age", "lt", 20)]`, with the declared index
`QueryIndex([], ["age"])` covering its fields (exactly the setup of
`tests/test_query.py::test_query_lt`), `standard_query_to_key_condition`
raises `QueryNotSupportedError` because it insists every op be `"eq"` —
even though `_map_query_fields_to_index` does find a covering index, and
the same shape with `"eq"` is lowered to a key condition. -/
theorem standard_query_range_op_rejected_despite_covering_index :
    standard_query_to_key_condition "MyModel"
        [.query ⟨[], ["age"]⟩]
        [⟨"age", "lt", .int 20⟩]
      = .error "Only 'eq' operations are supported in queries."
    ∧ map_query_fields_to_index
        [.query ⟨[], ["age"]⟩]
        [⟨"age", "lt", .int 20⟩]
      = some ⟨[], ["age"]⟩
    ∧ standard_query_to_key_condition "MyModel"
        [.query ⟨[], ["age"]⟩]
        [⟨"age", "eq", .int 20⟩]
      = .ok ⟨"MyModel[][age]", "##100000000000000000020"⟩ :=
  ⟨rfl, rfl, rfl⟩

/-- C2: the claim states that with auto-decrypt enabled every record
yielded by the query iterator has its encrypted fields returned as
cleartext.  The code refutes this: `Model.query` passes an
`auto_decrypt` keyword that `Querier.__init__` does not accept (so the
call raises `TypeError`), and the record-building step of
`Querier.query` returns the rehydrated raw data untouched, sentinel
prefix included — only the `get_by_id` path runs `decrypt_fields`, which
would map the stored `"##encrypted##70617373776f7264"` to the decrypt
function applied to `"70617373776f7264"`. -/
theorem query_path_returns_sentinel_ciphertext :
    python_kwargs_accepted querier_init_params model_query_querier_kwargs = false
    ∧ querier_query_records
        [⟨[("my_secret", .str "##encrypted##70617373776f7264"), ("name", .str "John")]⟩]
      = [⟨[("my_secret", .str "##encrypted##70617373776f7264"), ("name", .str "John")]⟩]
    ∧ pyStartsWith "##encrypted##70617373776f7264" ENCRYPTED_FIELD_PREFIX = true
    ∧ ∀ decrypt : String → String,
        decrypt_fields decrypt ["my_secret"]
          ⟨[("my_secret", .str "##encrypted##70617373776f7264"), ("name", .str "John")]⟩
        = ⟨[("my_secret", .str (decrypt "70617373776f7264")), ("name", .str "John")]⟩ := by
  refine ⟨by decide, rfl, by decide, ?_⟩
  intro decrypt
  have h1 : pyStartsWith "##encrypted##70617373776f7264" ENCRYPTED_FIELD_PREFIX = true := by
    decide
  have h2 : pyReplace "##encrypted##70617373776f7264" ENCRYPTED_FIELD_PREFIX ""
      = "70617373776f7264" := by decide
  simp [decrypt_fields, decrypt_field_value, h1, h2]

/-- C3: the claim states the lexicographic encoders are strictly
monotone on each scalar type within the documented widths.  The code
refutes this for binary floats and decimals: `-1.5 < -0.5`, yet the
encoding of `-0.5` sorts strictly below the encoding of `-1.5` as text,
because complementing a zero integer part yields `10^10` (11
characters), which `zfill` cannot pad back to 10.  (`-1.5` renders as
`("1", "5000000000")` and `-0.5` as `("0", "5000000000")` under
`f"{abs(f):.10f}"`; `Decimal("-1.5")`/`Decimal("-0.5")` split into
`("1","5")`/`("0","5")`.) -/
theorem float_lexicographic_order_violated :
    float_to_lexicographic_string true 0 5000000000
        < float_to_lexicographic_string true 1 5000000000
    ∧ ¬ (float_to_lexicographic_string true 1 5000000000
        < float_to_lexicographic_string true 0 5000000000)
    ∧ decimal_to_lexicographic_string true "0" "5"
        < decimal_to_lexicographic_string true "1" "5" := by
  refine ⟨?_, ?_, ?_⟩
  · exact String.lt_iff_toList_lt.mpr (by decide)
  · rw [String.lt_iff_toList_lt]
    decide
  · exact String.lt_iff_toList_lt.mpr (by decide)

/-- C4: the claim states the error boundary raises `RecordNotUnique` for
a `ConditionalCheckFailed` item iff the item is a Put carrying a
`unique_node_id` column, so a counter-node Put must not raise it.  The
boundary the write engine actually uses (`errors.py`, imported by
`model.py`) refutes this: on a cancelled transaction whose single item is
a `CounterNode` conditional Put (condition `attribute_not_exists(pk)`, no
`unique_node_id` column), it raises `RecordNotUniqueError` — whereas the
unused `error_boundaries.py` boundary, which matches the claim, re-raises
the original error on the same input. -/
theorem counter_put_misclassified_as_record_not_unique :
    errors_transaction_write_error_boundary
        [(CounterNode.create "MyModel" "temp" "my_count" 0).assemble_transaction_item_put
          "test_table"]
        ["ConditionalCheckFailed"]
      = .recordNotUnique (some "immaterial_counter#MyModel_my_count_temp")
    ∧ error_boundaries_transaction_write_error_boundary
        [(CounterNode.create "MyModel" "temp" "my_count" 0).assemble_transaction_item_put
          "test_table"]
        ["ConditionalCheckFailed"]
      = .reraise := by
  exact ⟨by decide, by decide⟩

/-- C5: the claim states the error boundary used by the write engine
raises `CounterNotSaved` for a `ConditionalCheckFailed` on an Update
adding to the `count` column under the "owning row exists" precondition.
The boundary the write engine actually uses (`errors.py`, imported by
`model.py`) refutes this: it has no counter branch at all (nor does
`errors.py` even define `CounterNotSavedError`), so on a cancelled
transaction whose single item is the counter increment Update it
re-raises the original store error — whereas the unused
`error_boundaries.py` boundary does raise `CounterNotSavedError` with the
item's pk, as the claim describes. -/
theorem counter_increment_not_classified_by_engine_boundary :
    errors_transaction_write_error_boundary
        [(CounterNode.create "MyModel" "temp" "my_count" 0).assemble_transaction_item_increment
          "test_table"]
        ["ConditionalCheckFailed"]
      = .reraise
    ∧ error_boundaries_transaction_write_error_boundary
        [(CounterNode.create "MyModel" "temp" "my_count" 0).assemble_transaction_item_increment
          "test_table"]
        ["ConditionalCheckFailed"]
      = .counterNotSaved (some "immaterial_counter#MyModel_my_count_temp") := by
  exact ⟨by decide, by decide⟩

/-! ### Helper lemmas relating the serializers to the spec formulas -/

lemma pyJoin_comma_pairs (l : List FieldValue) :
    pyJoin "," (l.map fun f => f.name ++ "=" ++ serialize_for_index f.value false)
      = spec_pairs_comma l := by
  induction l with
  | nil => rfl
  | cons f rest ih =>
    cases rest with
    | nil => rfl
    | cons g t =>
      simp only [List.map, pyJoin, spec_pairs_comma, String.append_assoc] at ih ⊢
      rw [ih]

lemma pyJoin_comma_names (l : List String) :
    pyJoin "," l = spec_names_comma l := by
  induction l with
  | nil => rfl
  | cons n rest ih =>
    cases rest with
    | nil => rfl
    | cons m t =>
      simp only [pyJoin, spec_names_comma] at *
      rw [ih]

lemma partition_key_eq_spec (entity_name : String) (pk_fields : List FieldValue)
    (sort_field_names : List String) :
    serialize_for_query_node_partition_key entity_name pk_fields sort_field_names
      = spec_query_pk entity_name pk_fields sort_field_names := by
  unfold serialize_for_query_node_partition_key spec_query_pk
  rw [pyJoin_comma_pairs, pyJoin_comma_names]

lemma sort_key_eq_spec (v : FieldValue) (vs : List FieldValue) (entity_id : String) :
    serialize_for_query_node_partial_sort_key (v :: vs) ++ SEPERATOR ++ entity_id
      = spec_query_sk ((v :: vs).map (·.value)) entity_id := by
  induction vs generalizing v with
  | nil =>
    simp [serialize_for_query_node_partial_sort_key, pyJoin, spec_query_sk, SEPERATOR,
      String.append_assoc]
  | cons w ws ih =>
    have hw := ih w
    simp only [serialize_for_query_node_partial_sort_key, pyJoin, List.map,
      spec_query_sk] at hw ⊢
    rw [← hw]
    simp [SEPERATOR, String.append_assoc]

/-- C6: for every record and declared `UniqueIndex`, the materialized
`UniqueNode` has `pk = "E(n₁=s(v₁),n₂=s(v₂),…)"` under the
non-lexicographic encoding `s`, `sk = "unique"`, and its put is
conditioned on "the row does not exist OR the stored `entity_id` equals
this record's id": evaluating that condition against an absent row gives
true (first save), and against a stored row gives true exactly when the
row's `entity_id` equals the writing record's id — so re-saving the same
record passes while a different record's write is blocked. -/
theorem unique_node_key_and_resave_condition
    (entity_name entity_id table_name : String) (fields : List FieldValue) :
    (UniqueNode.create entity_name entity_id fields).pk = spec_unique_pk entity_name fields
    ∧ (UniqueNode.create entity_name entity_id fields).sk = "unique"
    ∧ ((UniqueNode.create entity_name entity_id fields).assemble_transaction_item_put
        table_name).putCondExpr
      = some "attribute_not_exists(pk) OR entity_id = :current_id"
    ∧ eval_unique_put_condition entity_id Option.none = true
    ∧ ∀ row : StoredUniqueRow,
        eval_unique_put_condition entity_id (some row) = (row.entity_id == entity_id) := by
  refine ⟨?_, rfl, rfl, rfl, fun row => rfl⟩
  simp only [UniqueNode.create, serialize_for_unique_node_primary_key, spec_unique_pk,
    pyJoin_comma_pairs]

/-- C7: in `save`, the node set submitted for deletion is exactly the
persisted existing node set (the BaseNode plus the nodes referenced in
its `other_nodes`) minus the freshly materialized node set, with
membership decided by `(pk, sk)` equality only — a node whose `(pk, sk)`
reappears among the current nodes is not deleted. -/
theorem save_deletes_exactly_stale_nodes
    (existing_base : Option NodeKey) (existing_others current_nodes : List NodeKey)
    (n : NodeKey) :
    n ∈ save_for_deletion existing_base existing_others current_nodes
      ↔ n ∈ save_existing_nodes existing_base existing_others
          ∧ ¬ ∃ m ∈ current_nodes, m.pk = n.pk ∧ m.sk = n.sk := by
  simp [save_for_deletion, node_eq, List.mem_filter]

/-- C8: for every record and declared `QueryIndex` with at least one sort
field, the materialized `QueryNode`'s key is
`pk = "E[p₁=s(v₁),…][s₁,s₂,…]"` (partition fields non-lexicographically
encoded, the trailing bracket listing the sort-field names) and
`sk = "##" ‖ lex(v₁) ‖ "##" ‖ lex(v₂) ‖ … ‖ "##" ‖ R`, each sort-field
value lexicographically encoded, separated and prefixed by `"##"`, with
the record id as the final component. -/
theorem query_node_key_matches_spec
    (entity_name entity_id raw_data : String)
    (partition_fields sort_fields : List FieldValue)
    (h : sort_fields ≠ []) :
    (QueryNode.create entity_name entity_id partition_fields sort_fields raw_data).pk
      = spec_query_pk entity_name partition_fields (sort_fields.map (·.name))
    ∧ (QueryNode.create entity_name entity_id partition_fields sort_fields raw_data).sk
      = spec_query_sk (sort_fields.map (·.value)) entity_id := by
  cases sort_fields with
  | nil => exact absurd rfl h
  | cons v vs =>
    constructor
    · simp only [QueryNode.create, serialize_for_query_node_primary_key,
        partition_key_eq_spec]
    · simp only [QueryNode.create, serialize_for_query_node_primary_key]
      rw [← sort_key_eq_spec]

/-- C8, counterexample to the unrestricted claim: for a declared
`QueryIndex` with no sort fields the code's sk is `"####" ‖ R` (the
empty lexicographic join leaves a doubled separator), not the claim's
`"##" ‖ R` pattern of "##"-prefixed sort-field values followed by the
record id. -/
theorem query_node_empty_sort_fields_sk_differs :
    (QueryNode.create "MyModel" "temp" [⟨"name", .str "John"⟩] [] "{}").sk = "####temp"
    ∧ (spec_query_sk (([] : List FieldValue).map (·.value)) "temp").data
      ≠ ((QueryNode.create "MyModel" "temp" [⟨"name", .str "John"⟩] [] "{}").sk).data := by
  constructor
  · rfl
  · decide

/-- Witness for C8 at the spec's own authoritative example (§6, S1):
entity `MyModel`, record id `temp`, partition `name="John"`, sort
`age=30`. -/
theorem query_node_key_matches_spec_witness :
    ([⟨"age", .int 30⟩] : List FieldValue) ≠ []
    ∧ ((QueryNode.create "MyModel" "temp" [⟨"name", .str "John"⟩] [⟨"age", .int 30⟩] "{}").pk
        = spec_query_pk "MyModel" [⟨"name", .str "John"⟩] ["age"]
      ∧ (QueryNode.create "MyModel" "temp" [⟨"name", .str "John"⟩] [⟨"age", .int 30⟩] "{}").sk
        = spec_query_sk [.int 30] "temp") :=
  ⟨by decide,
    query_node_key_matches_spec "MyModel" "temp" "{}"
      [⟨"name", .str "John"⟩] [⟨"age", .int 30⟩] (by decide)⟩

/-! ### Lock-loop lemmas -/

lemma lock_acquire_go_acquired (clock : Nat → Int) (rowAt : Nat → Option Int) (endTime : Int) :
    ∀ fuel k m, lock_acquire_go clock rowAt endTime k fuel = .acquired m →
      k ≤ m ∧ clock m ≤ endTime ∧ lock_condition_holds (rowAt m) (clock m) = true
        ∧ ∀ j, k ≤ j → j < m →
            clock j ≤ endTime ∧ lock_condition_holds (rowAt j) (clock j) = false := by
  intro fuel
  induction fuel with
  | zero => intro k m h; simp [lock_acquire_go] at h
  | succ f ih =>
    intro k m h
    rw [lock_acquire_go] at h
    by_cases h1 : clock k ≤ endTime
    · rw [if_pos h1] at h
      by_cases h2 : lock_condition_holds (rowAt k) (clock k) = true
      · rw [if_pos h2] at h
        cases h
        exact ⟨le_refl _, h1, h2, fun j hkj hjk => absurd (lt_of_le_of_lt hkj hjk) (lt_irrefl _)⟩
      · rw [if_neg h2] at h
        obtain ⟨hle, hm1, hm2, hall⟩ := ih (k + 1) m h
        refine ⟨le_trans (Nat.le_succ k) hle, hm1, hm2, fun j hkj hjm => ?_⟩
        rcases Nat.eq_or_lt_of_le hkj with heq | hlt
        · exact heq ▸ ⟨h1, Bool.eq_false_iff.mpr (fun hc => h2 hc) |>.symm ▸ rfl⟩
        · exact hall j hlt hjm
    · rw [if_neg h1] at h
      cases h

lemma lock_acquire_go_failed (clock : Nat → Int) (rowAt : Nat → Option Int) (endTime : Int) :
    ∀ fuel k, lock_acquire_go clock rowAt endTime k fuel = .failed →
      ∃ m, k ≤ m ∧ endTime < clock m
        ∧ ∀ j, k ≤ j → j < m →
            clock j ≤ endTime ∧ lock_condition_holds (rowAt j) (clock j) = false := by
  intro fuel
  induction fuel with
  | zero => intro k h; simp [lock_acquire_go] at h
  | succ f ih =>
    intro k h
    rw [lock_acquire_go] at h
    by_cases h1 : clock k ≤ endTime
    · rw [if_pos h1] at h
      by_cases h2 : lock_condition_holds (rowAt k) (clock k) = true
      · rw [if_pos h2] at h; cases h
      · rw [if_neg h2] at h
        obtain ⟨m, hle, hm, hall⟩ := ih (k + 1) h
        refine ⟨m, le_trans (Nat.le_succ k) hle, hm, fun j hkj hjm => ?_⟩
        rcases Nat.eq_or_lt_of_le hkj with heq | hlt
        · exact heq ▸ ⟨h1, Bool.not_eq_true _ ▸ h2⟩
        · exact hall j hlt hjm
    · rw [if_neg h1] at h
      exact ⟨k, le_refl _, lt_of_not_le h1, fun j hkj hjk => absurd (lt_of_le_of_lt hkj hjk) (lt_irrefl _)⟩

lemma lock_acquire_go_ne_fuelOut (clock : Nat → Int) (rowAt : Nat → Option Int) (endTime : Int) :
    ∀ fuel k, (∃ m, k ≤ m ∧ m < k + fuel ∧ endTime < clock m) →
      lock_acquire_go clock rowAt endTime k fuel ≠ .fuelOut := by
  intro fuel
  induction fuel with
  | zero =>
    intro k ⟨m, hkm, hmf, _⟩
    omega
  | succ f ih =>
    intro k ⟨m, hkm, hmf, hclk⟩
    rw [lock_acquire_go]
    by_cases h1 : clock k ≤ endTime
    · rw [if_pos h1]
      by_cases h2 : lock_condition_holds (rowAt k) (clock k) = true
      · rw [if_pos h2]; simp
      · rw [if_neg h2]
        refine ih (k + 1) ⟨m, ?_, by omega, hclk⟩
        rcases Nat.eq_or_lt_of_le hkm with heq | hlt
        · exact absurd (heq ▸ hclk) (not_lt_of_le h1)
        · exact hlt
    · rw [if_neg h1]; simp

/-- C9: advisory lock acquisition for `id` attempts a conditional put of
the row `{pk: "immaterial_lock#" + id, sk: the fresh lease token,
expire_time: start + ttl}` under the condition "no row with this pk
exists OR its expire_time < now"; failed attempts retry (sleeping
between attempts, which the clock sequence absorbs), and if the deadline
`start + wait` passes without any attempt's condition holding, the
acquisition fails with the lock-acquisition error having written no lock
row.  `clock` is the sequence of wall-clock readings (strictly
increasing; reading `k + 1` follows the 500 ms sleep after failed
attempt `k`), `rowAt k` the stored lock row's `expire_time` at attempt
`k`, and `fuel` any recursion bound large enough for the deadline to
pass (`hfuel`). -/
theorem lock_acquire_row_and_failure
    (clock : Nat → Int) (rowAt : Nat → Option Int) (id lock_value : String)
    (ttl wait : Int) (fuel : Nat)
    (hmono : ∀ j, clock j < clock (j + 1))
    (hfuel : ∃ m, m < fuel ∧ clock 0 + wait < clock m) :
    (∃ k, lock_acquire clock rowAt id lock_value ttl wait fuel
        = (.acquired k, some ⟨"immaterial_lock#" ++ id, lock_value, clock 0 + ttl⟩)
      ∧ clock k ≤ clock 0 + wait
      ∧ lock_condition_holds (rowAt k) (clock k) = true
      ∧ ∀ j, j < k → lock_condition_holds (rowAt j) (clock j) = false)
    ∨ (lock_acquire clock rowAt id lock_value ttl wait fuel = (.failed, Option.none)
      ∧ ∀ j, clock j ≤ clock 0 + wait → lock_condition_holds (rowAt j) (clock j) = false) := by
  have hsm : StrictMono clock := strictMono_nat_of_lt_succ hmono
  cases hgo : lock_acquire_go clock rowAt (clock 0 + wait) 0 fuel with
  | acquired m =>
    left
    obtain ⟨_, hm1, hm2, hall⟩ :=
      lock_acquire_go_acquired clock rowAt (clock 0 + wait) fuel 0 m hgo
    refine ⟨m, ?_, hm1, hm2, fun j hj => (hall j (Nat.zero_le j) hj).2⟩
    simp [lock_acquire, hgo, immaterial_lock_pk]
  | failed =>
    right
    obtain ⟨m, _, hm, hall⟩ :=
      lock_acquire_go_failed clock rowAt (clock 0 + wait) fuel 0 hgo
    refine ⟨by simp [lock_acquire, hgo], fun j hj => ?_⟩
    have hjm : j < m := by
      by_contra hge
      push_neg at hge
      have hmono2 : clock m ≤ clock j := hsm.monotone hge
      omega
    exact (hall j (Nat.zero_le j) hjm).2
  | fuelOut =>
    obtain ⟨m, hmf, hclk⟩ := hfuel
    exact absurd hgo (lock_acquire_go_ne_fuelOut clock rowAt (clock 0 + wait) fuel 0
      ⟨m, Nat.zero_le m, by omega, hclk⟩)

/-- Witness for C9: a concrete run in which the lock row is always held
with a far-future expiry — the clock ticks 500 ms per retry, `wait`
5000 ms elapses after 11 attempts, and acquisition fails without writing
a row. -/
theorem lock_acquire_row_and_failure_witness :
    (∀ j : Nat, (fun k : Nat => (500 : Int) * k) j < (fun k : Nat => (500 : Int) * k) (j + 1))
    ∧ (∃ m : Nat, m < 20 ∧ (fun k : Nat => (500 : Int) * k) 0 + 5000 < (fun k : Nat => (500 : Int) * k) m)
    ∧ ((∃ k, lock_acquire (fun k : Nat => (500 : Int) * k) (fun _ => some 999999999)
          "rec1" "tok" 15000 5000 20
          = (.acquired k, some ⟨"immaterial_lock#" ++ "rec1", "tok",
              (fun k : Nat => (500 : Int) * k) 0 + 15000⟩)
        ∧ (fun k : Nat => (500 : Int) * k) k ≤ (fun k : Nat => (500 : Int) * k) 0 + 5000
        ∧ lock_condition_holds ((fun _ => some 999999999) k) ((fun k : Nat => (500 : Int) * k) k) = true
        ∧ ∀ j, j < k →
            lock_condition_holds ((fun _ => some 999999999) j) ((fun k : Nat => (500 : Int) * k) j) = false)
      ∨ (lock_acquire (fun k : Nat => (500 : Int) * k) (fun _ => some 999999999)
          "rec1" "tok" 15000 5000 20 = (.failed, Option.none)
        ∧ ∀ j, (fun k : Nat => (500 : Int) * k) j ≤ (fun k : Nat => (500 : Int) * k) 0 + 5000 →
            lock_condition_holds ((fun _ => some 999999999) j) ((fun k : Nat => (500 : Int) * k) j) = false)) := by
  refine ⟨fun j => by push_cast; omega, ⟨11, by omega, by norm_num⟩, ?_⟩
  exact lock_acquire_row_and_failure (fun k : Nat => (500 : Int) * k) (fun _ => some 999999999)
    "rec1" "tok" 15000 5000 20 (fun j => by push_cast; omega) ⟨11, by omega, by norm_num⟩

/-- C10: for an id with no persisted BaseNode at `(id, id)`,
`delete_by_id` returns before assembling any transaction: it submits no
atomic write and the node-row table is unchanged (no node row created or
deleted; the advisory lock row it transiently writes and removes lives
outside this table and is covered by the lock model). -/
theorem delete_by_id_without_base_is_noop
    (store : List TableRow) (id : String)
    (h : get_base_node store id = Option.none) :
    delete_by_id store id = (store, []) := by
  unfold delete_by_id
  rw [h]

/-- Witness for C10: a store holding only an unrelated row. -/
theorem delete_by_id_without_base_is_noop_witness :
    get_base_node [⟨"other", "other", "base", []⟩] "missing" = Option.none
    ∧ delete_by_id [⟨"other", "other", "base", []⟩] "missing"
      = ([⟨"other", "other", "base", []⟩], []) :=
  ⟨by decide, delete_by_id_without_base_is_noop [⟨"other", "other", "base", []⟩] "missing" (by decide)⟩

end ImmaterialDB
